import Mathlib

/-!
Shallow embedding of `src/app.py` (Streamlit "Expert LLM Helper").

The app consists of:
  * API-key resolution: `os.getenv("OPENAI_API_KEY")` first, then
    `st.secrets["OPENAI_API_KEY"]` wrapped in try/except; a falsy key halts
    the script (`st.error` + `st.stop`) before the main UI renders.
  * `get_llm`: a `@st.cache_resource` factory for a `ChatOpenAI` client with
    fixed constants (model "gpt-4o-mini", temperature 0.3, timeout 60).
  * `PERSONAS`: an ordered dict from persona label to system-prompt string.
  * `query_llm`: resolves the persona via `PERSONAS.get(key, fallback)`,
    builds `ChatPromptTemplate.from_messages([("system", system_msg),
    ("human", "{user_input}")])` and invokes the chain with
    `{"user_input": input_text}`.
  * The submit handler: warns on blank (stripped-empty) input, otherwise
    calls `query_llm` inside try/except and shows the answer or an error.

The external LLM call is opaque; it is modelled as an oracle
`List Message → Except String String` (an `Except.error` models a raised
exception, which the UI's `except` catches). Template formatting follows
Python `str.format` named-field semantics as used by LangChain's f-string
`ChatPromptTemplate` (named fields only; the source templates use no
conversion or format specs, no positional fields).
-/

/-- A chat message: a (role, content) pair, as in LangChain message tuples. -/
structure Message where
  role : String
  content : String
deriving DecidableEq

/-- Python whitespace predicate used by `str.strip()` (via `str.isspace`):
ASCII whitespace `\t \n \v \f \r` and space, the C1 control range 1C–1F,
NEL, NBSP, and the Unicode space separators (U+1680, U+2000–U+200A,
U+2028, U+2029, U+202F, U+205F, U+3000). -/
def pyIsSpace (c : Char) : Bool :=
  let n := c.toNat
  (9 ≤ n && n ≤ 13) || (28 ≤ n && n ≤ 31) || n = 32 || n = 133 || n = 160 ||
    n = 5760 || (8192 ≤ n && n ≤ 8202) || n = 8232 || n = 8233 || n = 8239 ||
    n = 8287 || n = 12288

/-- Python `str.strip()`: drop leading and trailing whitespace. -/
def pyStrip (s : String) : String :=
  ⟨((s.data.dropWhile pyIsSpace).reverse.dropWhile pyIsSpace).reverse⟩

/-- Lookup in a keyword-argument environment (the dict passed to
`chain.invoke`). -/
def envLookup : List (String × String) → String → Option String
  | [], _ => none
  | (k, v) :: rest, name => if name = k then some v else envLookup rest name

/-- Scanner state for the `str.format` template scanner. -/
inductive FmtMode where
  | normal
  | field (acc : List Char)
  | closing
deriving DecidableEq

/-- Python `str.format` template scanning with named fields, as LangChain's
f-string templates use it: `\x7b\x7b` and `\x7d\x7d` are literal braces, a
field `\x7bname\x7d` is replaced by the value bound to `name` (substituted
verbatim, never re-scanned), and a stray or unterminated brace, or an
unbound name, is a raised exception (`none`). `acc` holds the pending field
name reversed. -/
def fmtCore (env : List (String × String)) : List Char → FmtMode → Option (List Char)
  | [], .normal => some []
  | [], _ => none
  | c :: rest, .normal =>
    if c = '{' then fmtCore env rest (.field [])
    else if c = '}' then fmtCore env rest .closing
    else
      match fmtCore env rest .normal with
      | some out => some (c :: out)
      | none => none
  | c :: rest, .closing =>
    if c = '}' then
      match fmtCore env rest .normal with
      | some out => some ('}' :: out)
      | none => none
    else none
  | c :: rest, .field acc =>
    if c = '{' then
      if acc.isEmpty then
        match fmtCore env rest .normal with
        | some out => some ('{' :: out)
        | none => none
      else none
    else if c = '}' then
      match envLookup env ⟨acc.reverse⟩ with
      | some v =>
        match fmtCore env rest .normal with
        | some out => some (v.data ++ out)
        | none => none
      | none => none
    else fmtCore env rest (.field (c :: acc))

/-- Format one template string with the invocation environment. -/
def formatTemplate (env : List (String × String)) (tmpl : String) : Option String :=
  match fmtCore env tmpl.data .normal with
  | some cs => some ⟨cs⟩
  | none => none

/-- Format every message template of a `ChatPromptTemplate` (what
`prompt.invoke(env)` does before the model call). -/
def formatPrompt (env : List (String × String)) : List Message → Option (List Message)
  | [] => some []
  | m :: rest =>
    match formatTemplate env m.content, formatPrompt env rest with
    | some c, some r => some (⟨m.role, c⟩ :: r)
    | _, _ => none

/-- The persona registry `PERSONAS` of `src/app.py`: an ordered mapping
from expert label to system-prompt string (Python dict literal, lines
49–66). Adjacent Python string literals are concatenated as in the source. -/
def PERSONAS : List (String × String) :=
  [ ("コンプライアンス（保険業）",
      "あなたは生命保険業界のコンプライアンス専門家です。" ++
      "保険業法・当局ガイドライン・社内規程の観点から、" ++
      "潜在リスク・必要な社内手続・留意点を、根拠を示しつつ簡潔に助言してください。" ++
      "不確実な点は推測せず、確認すべき一次情報と部署を提示してください。"),
    ("データサイエンス",
      "あなたはビジネス課題を分析で解くデータサイエンス専門家です。" ++
      "目的定義→データ要件→前処理→特徴量→モデル選定→評価指標→運用化の順で、" ++
      "現場で再現可能なステップを具体的に提案してください。"),
    ("CX/サービスデザイン",
      "あなたはCX/サービスデザインの専門家です。" ++
      "ペルソナ・ジャーニー・価値仮説・MVP・検証方法・KPIを整理し、" ++
      "実装優先度（High/Medium/Low）付きで改善案を提示してください。") ]

/-- Python `dict.get(key, default)` over the ordered association list. -/
def dictGet : List (String × String) → String → String → String
  | [], _, default => default
  | (k, v) :: rest, key, default => if key = k then v else dictGet rest key default

/-- The generic default instruction `query_llm` falls back to when the
persona key is absent (line 79 of `src/app.py`); the spec's English quote
"You are a capable assistant; answer concisely and concretely" is its
translation. -/
def FALLBACK_INSTRUCTION : String :=
  "あなたは有能なアシスタントです。簡潔かつ具体的に答えてください。"

/-- `PERSONAS.get(persona_key, fallback)`: the resolved system message. -/
def system_of (persona_key : String) : String :=
  dictGet PERSONAS persona_key FALLBACK_INSTRUCTION

/-- The human-turn template of the `ChatPromptTemplate` (line 85). -/
def HUMAN_TEMPLATE : String := "{user_input}"

/-- The two message templates `ChatPromptTemplate.from_messages` is built
from in `query_llm` (lines 82–87). -/
def prompt_templates (system_msg : String) : List Message :=
  [⟨"system", system_msg⟩, ⟨"human", HUMAN_TEMPLATE⟩]

/-- The fully formatted prompt `chain.invoke(\x7b"user_input": input_text\x7d)`
produces and sends to the model: each template formatted with the
invocation environment. -/
def query_llm_prompt (input_text persona_key : String) : Option (List Message) :=
  formatPrompt [("user_input", input_text)] (prompt_templates (system_of persona_key))

/-- `query_llm` of `src/app.py` (lines 69–89), with the external model call
abstracted as `oracle` and the prompts actually sent to it recorded in the
second component. `StrOutputParser` passes the model's text through
unchanged. A formatting failure, like a model failure, is a raised
exception (`Except.error`). -/
def query_llm (oracle : List Message → Except String String)
    (input_text persona_key : String) : Except String String × List (List Message) :=
  match query_llm_prompt input_text persona_key with
  | some msgs => (oracle msgs, [msgs])
  | none => (.error "KeyError", [])

-- Sanity checks on concrete inputs (kept as examples, they compile to proofs).
example : pyStrip "  \n\tabc 　" = "abc" := by decide
example : system_of "unknown-value" = FALLBACK_INSTRUCTION := by decide
example : formatTemplate [("user_input", "x")] "{user_input}" = some "x" := by decide

/-- The resolved system message is always one of the three persona strings
or the fallback. -/
theorem system_of_mem (p : String) :
    system_of p ∈ FALLBACK_INSTRUCTION :: PERSONAS.map Prod.snd := by
  simp only [system_of, PERSONAS, dictGet, List.map]
  split_ifs <;> simp

set_option maxRecDepth 16384

/-- None of the four possible system messages contains a brace, so template
formatting leaves each unchanged whatever the bound user input is. -/
theorem formatTemplate_system (t p : String) :
    formatTemplate [("user_input", t)] (system_of p) = some (system_of p) := by
  have h := system_of_mem p
  simp only [PERSONAS, List.map, List.mem_cons, List.not_mem_nil, or_false] at h
  rcases h with h | h | h | h <;> rw [h] <;> rfl

/-- Formatting the human template substitutes the user text verbatim. -/
theorem formatTemplate_human (t : String) :
    formatTemplate [("user_input", t)] HUMAN_TEMPLATE = some t := by
  have h : fmtCore [("user_input", t)] HUMAN_TEMPLATE.data .normal
      = some (t.data ++ []) := rfl
  show (match fmtCore [("user_input", t)] HUMAN_TEMPLATE.data .normal with
    | some cs => some (⟨cs⟩ : String)
    | none => none) = some t
  rw [h, List.append_nil]

/-- The prompt `query_llm` sends is always exactly two messages: the
resolved system message, then the user text verbatim. -/
theorem query_llm_prompt_eq (t p : String) :
    query_llm_prompt t p = some [⟨"system", system_of p⟩, ⟨"human", t⟩] := by
  simp [query_llm_prompt, prompt_templates, formatPrompt,
    formatTemplate_system, formatTemplate_human]

/-- The `ChatOpenAI` client handle: its construction-time configuration
(lines 41–46 of `src/app.py`). Temperature 0.3 is represented as the
rational 3/10. -/
structure ChatOpenAIClient where
  api_key : String
  model : String
  temperature : ℚ
  timeout : ℕ
deriving DecidableEq

/-- The client `get_llm` constructs on a cache miss. -/
def mkChatOpenAI (key : String) : ChatOpenAIClient :=
  ⟨key, "gpt-4o-mini", 3 / 10, 60⟩

/-- `get_llm` under `@st.cache_resource` (lines 38–46): the cache state is
an `Option ChatOpenAIClient`; a hit returns the cached handle untouched, a
miss constructs the fixed-configuration client and caches it. Returns
(handle, new cache state). -/
def get_llm (key : String) (cache : Option ChatOpenAIClient) :
    ChatOpenAIClient × Option ChatOpenAIClient :=
  match cache with
  | some llm => (llm, some llm)
  | none => (mkChatOpenAI key, some (mkChatOpenAI key))

/-- Python truthiness of the optional key string: `None` and `""` are
falsy (the source tests `if not OPENAI_API_KEY`). -/
def pyTruthy : Option String → Bool
  | none => false
  | some s => s ≠ ""

/-- Key resolution (lines 21–26): `os.getenv("OPENAI_API_KEY")` first; if
falsy, `st.secrets["OPENAI_API_KEY"]` wrapped in try/except with the
exception mapped to `None`. `secrets` is `.error ()` when the secret store
raises (key absent / no secrets file). -/
def resolve_openai_api_key (envVar : Option String)
    (secrets : Except Unit String) : Option String :=
  if pyTruthy envVar then envVar
  else
    match secrets with
    | .ok v => some v
    | .error _ => none

/-- Outcome of module top-level execution up to line 35: either the script
halts (`st.error` with the message, then `st.stop`) before the main UI of
lines 92 onward renders, or it keeps running with the resolved key. -/
inductive StartupResult where
  | halted (msg : String)
  | running (apiKey : String)
deriving DecidableEq

/-- The error message shown when no key is found (lines 30–34). -/
def KEY_MISSING_MSG : String :=
  "OPENAI_API_KEY が未設定です。\n" ++
  "・ローカル/VSCode: ターミナルで `set OPENAI_API_KEY=sk-...`（一時）または `setx OPENAI_API_KEY \"sk-...\"`（永続）\n" ++
  "・Streamlit Cloud: App settings → Secrets に `OPENAI_API_KEY = \"sk-...\"` を保存\n"

/-- Lines 21–35: resolve the key, and if the result is still falsy, show
the error and stop before any main UI renders. -/
def startup (envVar : Option String) (secrets : Except Unit String) :
    StartupResult :=
  match resolve_openai_api_key envVar secrets with
  | some k => if k ≠ "" then .running k else .halted KEY_MISSING_MSG
  | none => .halted KEY_MISSING_MSG

/-- What the submit handler renders (lines 125–135). -/
inductive UIOutcome where
  | warning (msg : String)
  | answer (text : String)
  | errorShown (msg : String)
deriving DecidableEq

/-- The validation warning for blank input (line 127). -/
def WARN_EMPTY : String := "テキストを入力してください。"

/-- The prefix of the inline error message (line 135,
f-string "エラーが発生しました: \x7be\x7d"). -/
def ERROR_PREFIX : String := "エラーが発生しました: "

/-- The `if submitted:` handler (lines 125–135): warn when the stripped
text is empty (Python `if not user_text.strip()`), otherwise call
`query_llm` with the exact `user_text` inside try/except and render the
answer or the inline error. The second component records the prompts sent
to the external model. -/
def handle_submit (oracle : List Message → Except String String)
    (user_text persona : String) : UIOutcome × List (List Message) :=
  if pyStrip user_text = "" then
    (.warning WARN_EMPTY, [])
  else
    match query_llm oracle user_text persona with
    | (.ok ans, calls) => (.answer ans, calls)
    | (.error e, calls) => (.errorShown (ERROR_PREFIX ++ e), calls)

/-- The options of the persona radio control (line 113:
`list(PERSONAS.keys())`). -/
def radio_options : List String := PERSONAS.map Prod.fst

/-- The submit handler either makes no external call or exactly one, on
the two-message prompt. -/
theorem handle_submit_trace (oracle : List Message → Except String String)
    (t p : String) :
    (handle_submit oracle t p).2 = [] ∨
    (handle_submit oracle t p).2 = [[⟨"system", system_of p⟩, ⟨"human", t⟩]] := by
  unfold handle_submit query_llm
  rw [query_llm_prompt_eq]
  split_ifs with h
  · exact Or.inl rfl
  · cases hx : oracle [⟨"system", system_of p⟩, ⟨"human", t⟩] <;> simp [hx]

/-- Claim C1. For every label that is a key of `PERSONAS`, the prompt built
by `query_llm` has that label's instruction text, verbatim, as its system
turn (and the user text as its human turn). -/
theorem C1_registry_key_system_turn (label instr t : String)
    (h : (label, instr) ∈ PERSONAS) :
    query_llm_prompt t label = some [⟨"system", instr⟩, ⟨"human", t⟩] := by
  have hs : system_of label = instr := by
    simp only [PERSONAS, List.mem_cons, List.not_mem_nil, or_false,
      Prod.mk.injEq] at h
    rcases h with ⟨h1, h2⟩ | ⟨h1, h2⟩ | ⟨h1, h2⟩ <;> subst h1 <;> subst h2 <;> rfl
  rw [query_llm_prompt_eq, hs]

/-- Claim C1 witness: the "データサイエンス" scenario — system turn is the
data-science persona string verbatim, user turn is the text verbatim. -/
theorem C1_registry_key_system_turn_witness :
    query_llm_prompt "新商品の需要予測をしたい" "データサイエンス" =
      some [⟨"system",
              "あなたはビジネス課題を分析で解くデータサイエンス専門家です。" ++
              "目的定義→データ要件→前処理→特徴量→モデル選定→評価指標→運用化の順で、" ++
              "現場で再現可能なステップを具体的に提案してください。"⟩,
            ⟨"human", "新商品の需要予測をしたい"⟩] :=
  C1_registry_key_system_turn _ _ _ (by decide)

/-- Claim C2. For every label that is not a key of `PERSONAS`, the lookup
does not fail: the prompt is still built (`some`), with the fixed generic
default instruction (the spec quotes it in English translation: "You are a
capable assistant; answer concisely and concretely") as the system turn. -/
theorem C2_absent_key_falls_back (label t : String)
    (h : label ∉ PERSONAS.map Prod.fst) :
    query_llm_prompt t label =
      some [⟨"system", FALLBACK_INSTRUCTION⟩, ⟨"human", t⟩] := by
  have hs : system_of label = FALLBACK_INSTRUCTION := by
    simp only [PERSONAS, List.map, List.mem_cons, List.not_mem_nil, or_false,
      not_or] at h
    obtain ⟨h1, h2, h3⟩ := h
    simp only [system_of, PERSONAS, dictGet]
    rw [if_neg h1, if_neg h2, if_neg h3]
  rw [query_llm_prompt_eq, hs]

/-- Claim C2 witness: the "unknown-value" scenario. -/
theorem C2_absent_key_falls_back_witness :
    "unknown-value" ∉ PERSONAS.map Prod.fst ∧
    query_llm_prompt "test" "unknown-value" =
      some [⟨"system", FALLBACK_INSTRUCTION⟩, ⟨"human", "test"⟩] :=
  ⟨by decide, C2_absent_key_falls_back _ _ (by decide)⟩

/-- Claim C3. For every non-empty user text and any persona label, the
human turn of the assembled prompt is the user text unmodified — no
sanitization, truncation, or escaping. -/
theorem C3_user_turn_verbatim (t p : String) (_h : t ≠ "") :
    query_llm_prompt t p = some [⟨"system", system_of p⟩, ⟨"human", t⟩] :=
  query_llm_prompt_eq t p

/-- Claim C3 witness: text with markup, quotes and a newline passes
through unescaped and untruncated. -/
theorem C3_user_turn_verbatim_witness :
    ("<b>a & b</b> \"quote\" \n 100% {…}" ≠ "") ∧
    query_llm_prompt "<b>a & b</b> \"quote\" \n 100% {…}" "データサイエンス" =
      some [⟨"system", system_of "データサイエンス"⟩,
            ⟨"human", "<b>a & b</b> \"quote\" \n 100% {…}"⟩] :=
  ⟨by decide, C3_user_turn_verbatim _ _ (by decide)⟩

/-- Claim C4. A submission whose text strips to empty is answered with the
validation warning and makes no external call (empty call trace), for
every oracle and persona. -/
theorem C4_blank_input_no_call (oracle : List Message → Except String String)
    (t p : String) (h : pyStrip t = "") :
    handle_submit oracle t p = (.warning WARN_EMPTY, []) := by
  simp [handle_submit, h]

/-- Claim C4 witness: whitespace-only input (spaces, tab, newline and an
ideographic space) triggers the warning and no call. -/
theorem C4_blank_input_no_call_witness :
    pyStrip " \t\n　 " = "" ∧
    handle_submit (fun _ => Except.ok "answer") " \t\n　 " "データサイエンス" =
      (.warning WARN_EMPTY, []) :=
  ⟨by decide, C4_blank_input_no_call _ _ _ (by decide)⟩

/-- Claim C5. If the external client raises on the submitted prompt, the
handler catches it and renders the inline error message made of the fixed
prefix and the underlying failure description; exactly one call was made,
no retry, and no answer is rendered. -/
theorem C5_client_error_shown_inline
    (oracle : List Message → Except String String) (t p e : String)
    (hne : pyStrip t ≠ "")
    (herr : oracle [⟨"system", system_of p⟩, ⟨"human", t⟩] = .error e) :
    handle_submit oracle t p =
      (.errorShown (ERROR_PREFIX ++ e),
       [[⟨"system", system_of p⟩, ⟨"human", t⟩]]) := by
  unfold handle_submit query_llm
  rw [query_llm_prompt_eq, if_neg hne]
  simp [herr]

/-- Claim C5 witness: an always-raising client yields the inline error
containing the failure text, after exactly one call. -/
theorem C5_client_error_shown_inline_witness :
    pyStrip "こんにちは" ≠ "" ∧
    handle_submit (fun _ => Except.error "boom") "こんにちは" "データサイエンス" =
      (.errorShown (ERROR_PREFIX ++ "boom"),
       [[⟨"system", system_of "データサイエンス"⟩, ⟨"human", "こんにちは"⟩]]) :=
  ⟨by decide, C5_client_error_shown_inline _ _ _ _ (by decide) rfl⟩

/-- Claim C6. The key is resolved environment-variable first (a truthy
environment value wins whatever the secret store holds), then from the
secret store; when both are absent the script halts with the user-visible
message before the main UI renders. -/
theorem C6_api_key_resolution_order (envVar : Option String)
    (secrets : Except Unit String) (v w : String)
    (hv : v ≠ "") (hw : w ≠ "") (henv : pyTruthy envVar = false) :
    startup (some v) secrets = .running v ∧
    startup envVar (.ok w) = .running w ∧
    startup envVar (.error ()) = .halted KEY_MISSING_MSG := by
  refine ⟨?_, ?_, ?_⟩
  · simp [startup, resolve_openai_api_key, pyTruthy, hv]
  · simp [startup, resolve_openai_api_key, henv, hw]
  · simp [startup, resolve_openai_api_key, henv]

/-- Claim C6 witness: environment wins over a raising secret store; the
secret store is used when the environment is unset; both absent halts. -/
theorem C6_api_key_resolution_order_witness :
    startup (some "sk-env") (.error ()) = .running "sk-env" ∧
    startup none (.ok "sk-secret") = .running "sk-secret" ∧
    startup none (.error ()) = .halted KEY_MISSING_MSG :=
  C6_api_key_resolution_order none (.error ()) "sk-env" "sk-secret"
    (by decide) (by decide) (by decide)

/-- Claim C7. The client handle is constructed at most once with the fixed
configuration constants (model "gpt-4o-mini", temperature 0.3, timeout 60),
a cached handle is returned unchanged, and every submission sends at most
one request, always the ordered two-message list (system turn first, user
turn second). -/
theorem C7_client_once_fixed_config_two_messages
    (key : String) (c : ChatOpenAIClient)
    (oracle : List Message → Except String String) (t p : String) :
    (get_llm key none).1 = ⟨key, "gpt-4o-mini", 3 / 10, 60⟩ ∧
    get_llm key (some c) = (c, some c) ∧
    (handle_submit oracle t p).2.length ≤ 1 ∧
    ∀ msgs ∈ (handle_submit oracle t p).2,
      msgs = [⟨"system", system_of p⟩, ⟨"human", t⟩] := by
  refine ⟨rfl, rfl, ?_, ?_⟩ <;>
    rcases handle_submit_trace oracle t p with h | h <;> rw [h] <;> simp

/-- Claim C7 witness at a concrete submission. -/
theorem C7_client_once_fixed_config_two_messages_witness :
    (handle_submit (fun _ => Except.ok "ok") "需要予測" "データサイエンス").2.length ≤ 1 :=
  (C7_client_once_fixed_config_two_messages "sk-x" (mkChatOpenAI "sk-x")
    _ _ _).2.2.1

/-- Claim C8. `query_llm` itself validates nothing: for every text,
including the empty and whitespace-only strings, it resolves the persona,
assembles the prompt and invokes the client exactly once on it. -/
theorem C8_query_llm_no_validation
    (oracle : List Message → Except String String) (t p : String) :
    query_llm oracle t p =
      (oracle [⟨"system", system_of p⟩, ⟨"human", t⟩],
       [[⟨"system", system_of p⟩, ⟨"human", t⟩]]) := by
  unfold query_llm
  rw [query_llm_prompt_eq]

/-- Claim C9. Every label offered by the radio control is a key of
`PERSONAS`, its lookup succeeds with its own instruction, and that
instruction is not the generic fallback — so the fallback branch is
unreachable from the UI. -/
theorem C9_radio_options_registry_keys (label : String)
    (h : label ∈ radio_options) :
    ∃ instr, (label, instr) ∈ PERSONAS ∧ system_of label = instr ∧
      instr ≠ FALLBACK_INSTRUCTION := by
  simp only [radio_options, PERSONAS, List.map, List.mem_cons,
    List.not_mem_nil, or_false] at h
  rcases h with h | h | h <;> subst h <;>
    exact ⟨_, by decide, rfl, by decide⟩

/-- Claim C9 witness: the "データサイエンス" radio option. -/
theorem C9_radio_options_registry_keys_witness :
    ∃ instr, ("データサイエンス", instr) ∈ PERSONAS ∧
      system_of "データサイエンス" = instr ∧ instr ≠ FALLBACK_INSTRUCTION :=
  C9_radio_options_registry_keys _ (by decide)

/-- Claim C10. Stripping is used only for the emptiness guard: every
non-blank submission forwards the exact `user_text`, leading/trailing
whitespace and newlines included, as the human turn of the one request
sent. -/
theorem C10_forwarded_text_unstripped
    (oracle : List Message → Except String String) (t p : String)
    (h : pyStrip t ≠ "") :
    (handle_submit oracle t p).2 =
      [[⟨"system", system_of p⟩, ⟨"human", t⟩]] := by
  unfold handle_submit query_llm
  rw [query_llm_prompt_eq, if_neg h]
  cases hx : oracle [⟨"system", system_of p⟩, ⟨"human", t⟩] <;> simp [hx]

/-- Claim C10 witness: text with leading spaces and a trailing newline is
forwarded with them intact. -/
theorem C10_forwarded_text_unstripped_witness :
    pyStrip "  新商品の需要予測をしたい\n" ≠ "" ∧
    (handle_submit (fun _ => Except.ok "回答") "  新商品の需要予測をしたい\n"
        "データサイエンス").2 =
      [[⟨"system", system_of "データサイエンス"⟩,
        ⟨"human", "  新商品の需要予測をしたい\n"⟩]] :=
  ⟨by decide, C10_forwarded_text_unstripped _ _ _ (by decide)⟩
